import Mathlib

/-!
Shallow embedding of the relay core of `gazebo-robot-control`
(`src/backend/main.py` and `src/backend/platform_client.py`).

Numeric values are modelled as rationals (`ℚ`); JSON payload values are an
inductive `Json` type.  Stateful async code is modelled by explicit state
passing and by traces of actions: each upstream emit attempt, each message
sent to a browser connection, and each `asyncio.sleep` appears as one
`Action` in the order the source performs them.  Whether a Socket.IO emit
succeeds (the code catches exceptions from `sio.emit` and turns them into a
`False` return) is supplied by an oracle `Nat → Bool` indexed by the number
of previous emit attempts inside the same handler call.
-/

namespace Relay

/-- A JSON value, as decoded by `json.loads` from a browser message or carried
in a telemetry payload.  Composite values (arrays, nested objects) occur only
in the laser-scan path, which none of the modelled properties touch, so only
scalar values are represented. -/
inductive Json where
  | num (q : ℚ)
  | str (s : String)
  | bool (b : Bool)
  | null
deriving DecidableEq, Repr

/-- A decoded JSON object (Python `dict`), as handed to `handle_command` and
to the telemetry handlers. -/
abbrev Dict := List (String × Json)

/-- Python `d.get(key)`: the value of the first binding of `key`, if any. -/
def dictGet : Dict → String → Option Json
  | [], _ => none
  | (k, v) :: rest, key => if k = key then some v else dictGet rest key

/-- Python `d.get(key, default)`. -/
def dictGetD (d : Dict) (key : String) (dflt : Json) : Json :=
  (dictGet d key).getD dflt

/-- Python `str()` of a scalar JSON value, as interpolated by an f-string. -/
def pyStr : Json → String
  | .num q => toString q
  | .str s => s
  | .bool b => if b then "True" else "False"
  | .null => "None"

/-- Python `str()` of an optional value (`command.get("type")` may be `None`). -/
def pyStrOpt : Option Json → String
  | none => "None"
  | some j => pyStr j

/-- State of a `PlatformClient` (`platform_client.py`): the `_connected` flag
set by the namespace `connected` / `disconnect` event handlers, and whether
the underlying Socket.IO transport is up. -/
structure PlatformClient where
  connected : Bool
  sioUp : Bool
deriving DecidableEq, Repr

/-- The freshly constructed client: `self._connected = False`, no transport. -/
def initClient : PlatformClient := { connected := false, sioUp := false }

/-- The `connected` namespace event handler registered inside
`PlatformClient.connect`: sets `self._connected = True`.  It runs whenever the
server delivers the connection-confirmed signal, also after `connect` has
already returned. -/
def onConnectedSignal (c : PlatformClient) : PlatformClient :=
  { c with connected := true }

/-- `PlatformClient.connect`.  `transportOk` abstracts whether
`sio.connect(...)` succeeds (its failure is the `except` branch, which sets
`_connected = False` and returns `False`); `confirmInTime` abstracts whether
the `connection_confirmed` event is set within the 10-second
`asyncio.wait_for` window.  On the timeout branch the code only returns
`False`: the `_connected` flag is left as the handlers set it and the
transport is not torn down. -/
def connect (c : PlatformClient) (transportOk confirmInTime : Bool) :
    Bool × PlatformClient :=
  if transportOk then
    let c := { c with sioUp := true }
    if confirmInTime then (true, onConnectedSignal c)
    else (false, c)
  else
    (false, { c with connected := false })

/-- `PlatformClient.is_connected`. -/
def is_connected (c : PlatformClient) : Bool :=
  c.connected

/-- `PlatformClient.disconnect`: `await self.sio.disconnect()` (a no-op when
the transport is already down) then `self._connected = False`. -/
def PlatformClient.disconnect (c : PlatformClient) : PlatformClient :=
  { c with sioUp := false, connected := false }

/-- An emit attempt on the upstream Socket.IO namespace. -/
inductive UpAction where
  | twist (linear_x angular_z : Json)
deriving DecidableEq, Repr

/-- A message sent to one browser connection with `websocket.send_json`,
mirroring the payload shapes built in `main.py`. -/
inductive OutMsg where
  | status (connected platform_connected : Bool) (message : String)
  | commandSent (command : String) (duration : Option Json)
  | error (message : String)
  | poseUpdate (x y yaw : Json)
  | battery (percentage voltage charging : Json)
deriving DecidableEq, Repr

/-- One step performed by a command handler, in source order: an upstream emit
attempt (`ok` records whether it succeeded or raised), a message sent to the
requesting browser connection, or an `asyncio.sleep`. -/
inductive Action where
  | up (a : UpAction) (ok : Bool)
  | browser (m : OutMsg)
  | sleep (d : ℚ)
deriving DecidableEq, Repr

/-- `PlatformClient.send_twist_command`: returns `False` with no emit when
`_connected` is false; otherwise performs exactly one emit attempt and
returns whether it succeeded (an exception from `sio.emit` is caught and
turned into `False`). -/
def send_twist_command (c : PlatformClient) (emitOk : Bool) (lx az : Json) :
    Bool × List Action :=
  if c.connected then (emitOk, [.up (.twist lx az) emitOk])
  else (false, [])

/-- `PlatformClient.send_stop_command`: `send_twist_command(0.0, 0.0)`. -/
def send_stop_command (c : PlatformClient) (emitOk : Bool) : Bool × List Action :=
  send_twist_command c emitOk (.num 0) (.num 0)

/-- Message of the `TypeError` that `asyncio.sleep` raises on a non-numeric
duration; its exact CPython text is environment-dependent and no modelled
property depends on it. -/
def sleepTypeErrorMsg (_ : Json) : String :=
  "unsupported operand type for sleep"

/-- The duration behaviour of `asyncio.sleep(d)`: a Python number (or bool,
a subclass of int) sleeps, anything else raises `TypeError`. -/
def sleepArg : Json → Option ℚ
  | .num q => some q
  | .bool b => some (if b then 1 else 0)
  | _ => none

/-- `handle_command` (`main.py`): the sequence of actions one decoded browser
command produces.  `client` is the global `platform_client` (None in
standalone mode); `emitOk n` tells whether the `n`-th upstream emit attempt of
this call succeeds. -/
def handle_command (client : Option PlatformClient) (emitOk : Nat → Bool)
    (command : Dict) : List Action :=
  match client with
  | none => [.browser (.error "Not connected to robot")]
  | some c =>
    if c.connected = false then [.browser (.error "Not connected to robot")]
    else
      let cmdType := dictGet command "type"
      if cmdType = some (.str "move") then
        let lx := dictGetD command "linear_x" (.num 0)
        let az := dictGetD command "angular_z" (.num 0)
        let r := send_twist_command c (emitOk 0) lx az
        r.2 ++ (if r.1 then [.browser (.commandSent "move" none)]
                else [.browser (.error "Failed to send move command")])
      else if cmdType = some (.str "stop") then
        let r := send_stop_command c (emitOk 0)
        r.2 ++ (if r.1 then [.browser (.commandSent "stop" none)]
                else [.browser (.error "Failed to send stop command")])
      else if cmdType = some (.str "spin") then
        let angular_speed := dictGetD command "angular_speed" (.num 2)
        let duration := dictGetD command "duration" (.num 5)
        let r := send_twist_command c (emitOk 0) (.num 0) angular_speed
        if r.1 then
          r.2 ++ [.browser (.commandSent "spin" (some duration))] ++
            (match sleepArg duration with
             | some q => .sleep q :: (send_stop_command c (emitOk 1)).2
             | none => [.browser (.error (sleepTypeErrorMsg duration))])
        else
          r.2 ++ [.browser (.error "Failed to send spin command")]
      else
        [.browser (.error ("Unknown command: " ++ pyStrOpt cmdType))]

/-- The receive loop of `websocket_endpoint`: each decoded command is handled
to completion (`await handle_command(...)`) before the next message of the
same connection is read.  `emitOk i n` is the oracle for the `n`-th emit of
the `i`-th command. -/
def processCommands (client : Option PlatformClient) (emitOk : Nat → Nat → Bool) :
    List Dict → List Action
  | [] => []
  | cmd :: rest =>
      handle_command client (emitOk 0) cmd ++
        processCommands client (fun i => emitOk (i + 1)) rest

/-- Timestamped upstream emit attempts of a trace, starting at clock `t`:
every `sleep d` advances the clock by at least `d` (and never backwards). -/
def timedUpFrom (t : ℚ) : List Action → List (ℚ × UpAction × Bool)
  | [] => []
  | .up a ok :: rest => (t, a, ok) :: timedUpFrom t rest
  | .browser _ :: rest => timedUpFrom t rest
  | .sleep d :: rest => timedUpFrom (t + max d 0) rest

/-- Timestamped upstream emit attempts, from clock 0. -/
def timedUp (acts : List Action) : List (ℚ × UpAction × Bool) :=
  timedUpFrom 0 acts

/-- Timestamped browser messages of a trace, starting at clock `t`. -/
def timedBrowserFrom (t : ℚ) : List Action → List (ℚ × OutMsg)
  | [] => []
  | .up _ _ :: rest => timedBrowserFrom t rest
  | .browser m :: rest => (t, m) :: timedBrowserFrom t rest
  | .sleep d :: rest => timedBrowserFrom (t + max d 0) rest

/-- Timestamped browser messages, from clock 0. -/
def timedBrowser (acts : List Action) : List (ℚ × OutMsg) :=
  timedBrowserFrom 0 acts

/-- The upstream emit attempts of a trace, without timestamps. -/
def upAttempts : List Action → List (UpAction × Bool)
  | [] => []
  | .up a ok :: rest => (a, ok) :: upAttempts rest
  | .browser _ :: rest => upAttempts rest
  | .sleep _ :: rest => upAttempts rest

/-- The total time a handler call keeps its connection's receive loop busy:
the sum of its sleeps. -/
def clockAfter : List Action → ℚ
  | [] => 0
  | .sleep d :: rest => max d 0 + clockAfter rest
  | _ :: rest => clockAfter rest

/-- A browser connection handle; identity is all the fan-out needs. -/
abbrev Conn := Nat

/-- Result of broadcasting one telemetry event: the per-connection deliveries
that succeeded, and the active-connection list after the broadcast. -/
structure BroadcastResult where
  delivered : List (Conn × OutMsg)
  conns_after : List Conn
deriving DecidableEq, Repr

/-- The `for websocket in active_connections` loop shared by the telemetry
handlers: each send is tried; a raising send (`sendFails ws = true`) is
logged and skipped, and the loop continues with the remaining connections. -/
def broadcastLoop (message : OutMsg) (sendFails : Conn → Bool) :
    List Conn → List (Conn × OutMsg)
  | [] => []
  | ws :: rest =>
      if sendFails ws then broadcastLoop message sendFails rest
      else (ws, message) :: broadcastLoop message sendFails rest

/-- `handle_pose_update` (`main.py`): builds the `pose_update` message and
broadcasts it to every active connection; it never mutates
`active_connections`. -/
def handle_pose_update (conns : List Conn) (sendFails : Conn → Bool)
    (data : Dict) : BroadcastResult :=
  let message := OutMsg.poseUpdate (dictGetD data "x" (.num 0))
    (dictGetD data "y" (.num 0)) (dictGetD data "yaw" (.num 0))
  { delivered := broadcastLoop message sendFails conns, conns_after := conns }

/-- `handle_battery_update` (`main.py`): builds the `battery` message and
broadcasts it to every active connection; it never mutates
`active_connections`. -/
def handle_battery_update (conns : List Conn) (sendFails : Conn → Bool)
    (data : Dict) : BroadcastResult :=
  let message := OutMsg.battery (dictGetD data "percentage" (.num 0))
    (dictGetD data "voltage" (.num 0)) (dictGetD data "charging" (.bool false))
  { delivered := broadcastLoop message sendFails conns, conns_after := conns }

/-- The ValueError message of Python `list.remove` on a missing element. -/
def removeMissingMsg : String := "list.remove(x): x not in list"

/-- Python `list.remove(x)`: removes the first occurrence of `x`, raising
`ValueError` when `x` is not in the list. -/
def listRemove (x : Conn) : List Conn → Except String (List Conn)
  | [] => .error removeMissingMsg
  | y :: ys =>
      if y = x then .ok ys
      else (listRemove x ys).map (fun zs => y :: zs)

/-- The registry's detach operation, as performed by the `finally` block of
`websocket_endpoint`: `active_connections.remove(websocket)`. -/
def detach (conns : List Conn) (ws : Conn) : Except String (List Conn) :=
  listRemove ws conns

/-- The body of the `/health` endpoint's response. -/
structure HealthResponse where
  status : String
  platform_connected : Bool
  active_connections : Nat
deriving DecidableEq, Repr

/-- `health_check` (`main.py`): `platform_connected` is
`platform_client is not None and platform_client.is_connected()`. -/
def health_check (client : Option PlatformClient) (conns : List Conn) :
    HealthResponse :=
  { status := "ok",
    platform_connected := match client with
      | none => false
      | some c => is_connected c,
    active_connections := conns.length }

/-- `startup_event` (`main.py`): with both credentials present a client is
constructed and `connect` is awaited (a `False` result or an exception leaves
`platform_client = None`); with either credential absent the process runs in
standalone mode with `platform_client = None`. -/
def startup_event (session_id session_token : Option String)
    (transportOk confirmInTime : Bool) : Option PlatformClient :=
  match session_id, session_token with
  | some _, some _ =>
      let r := connect initClient transportOk confirmInTime
      if r.1 then some r.2 else none
  | _, _ => none

/-- A well-formed spin command message with numeric `angular_speed` and
`duration` fields. -/
def spinCmd (a d : ℚ) : Dict :=
  [("type", Json.str "spin"), ("angular_speed", Json.num a),
   ("duration", Json.num d)]

theorem broadcastLoop_eq_filter (message : OutMsg) (sendFails : Conn → Bool)
    (conns : List Conn) :
    broadcastLoop message sendFails conns =
      (conns.filter (fun ws => !sendFails ws)).map (fun ws => (ws, message)) := by
  induction conns with
  | nil => rfl
  | cons ws rest ih =>
      by_cases h : sendFails ws = true <;>
        simp [broadcastLoop, List.filter, h, ih]

theorem listRemove_not_mem {ws : Conn} {conns : List Conn} (h : ws ∉ conns) :
    listRemove ws conns = Except.error removeMissingMsg := by
  induction conns with
  | nil => rfl
  | cons y rest ih =>
      have hy : ¬ y = ws := fun hcontr => h (hcontr ▸ List.mem_cons_self y rest)
      have hrest : ws ∉ rest := fun hmem => h (List.mem_cons_of_mem y hmem)
      simp [listRemove, hy, ih hrest, Except.map]

/-- C2: broadcasting a telemetry event (pose or battery) delivers it to
exactly the attached connections whose send does not fail — a raising send is
skipped and delivery continues with every remaining connection — and the
fan-out leaves the active-connection list unchanged, so a failing connection
is not removed by the fan-out itself. -/
theorem C2_thm (conns : List Conn) (sendFails : Conn → Bool) (dataP dataB : Dict) :
    (handle_pose_update conns sendFails dataP).delivered =
      (conns.filter (fun ws => !sendFails ws)).map
        (fun ws => (ws, OutMsg.poseUpdate (dictGetD dataP "x" (.num 0))
          (dictGetD dataP "y" (.num 0)) (dictGetD dataP "yaw" (.num 0)))) ∧
    (handle_pose_update conns sendFails dataP).conns_after = conns ∧
    (handle_battery_update conns sendFails dataB).delivered =
      (conns.filter (fun ws => !sendFails ws)).map
        (fun ws => (ws, OutMsg.battery (dictGetD dataB "percentage" (.num 0))
          (dictGetD dataB "voltage" (.num 0))
          (dictGetD dataB "charging" (.bool false)))) ∧
    (handle_battery_update conns sendFails dataB).conns_after = conns := by
  refine ⟨?_, rfl, ?_, rfl⟩ <;>
    simp [handle_pose_update, handle_battery_update, broadcastLoop_eq_filter]

/-- C5 counterexample: detaching an already-detached connection is not
error-free.  With the registry holding connection 5 only, detaching the
already-detached connection 7 raises `ValueError` (`list.remove` on a missing
element), refuting the claim that detach on an already-detached connection
produces no error. -/
theorem C5_counterexample :
    detach [5] 7 = Except.error removeMissingMsg := rfl

/-- C5 (amended): disconnect on an already-disconnected channel produces no
error and no state change, but detach on an already-detached connection
raises `ValueError` — the detach half of the claim fails on the code. -/
theorem C5_thm (c : PlatformClient) (h1 : c.connected = false)
    (h2 : c.sioUp = false) (conns : List Conn) (ws : Conn) (hws : ws ∉ conns) :
    PlatformClient.disconnect c = c ∧
    detach conns ws = Except.error removeMissingMsg := by
  refine ⟨?_, listRemove_not_mem hws⟩
  obtain ⟨conn, sio⟩ := c
  simp_all [PlatformClient.disconnect]

/-- C5 witness: the amended statement at the disconnected client and at a
registry holding only connection 5. -/
theorem C5_witness :
    PlatformClient.disconnect ⟨false, false⟩ = (⟨false, false⟩ : PlatformClient) ∧
    detach [5] 7 = Except.error removeMissingMsg :=
  C5_thm ⟨false, false⟩ rfl rfl [5] 7 (by decide)

/-- C7: `send_twist_command` on a non-connected client returns failure (it
does not raise) and performs no emit attempt; on a connected client it
performs exactly one emit attempt (its only side effect) and returns that
attempt's outcome without awaiting any acknowledgement. -/
theorem C7_thm (cOff cOn : PlatformClient) (hOff : cOff.connected = false)
    (hOn : cOn.connected = true) (emitOk : Bool) (lx az : Json) :
    send_twist_command cOff emitOk lx az = (false, []) ∧
    send_twist_command cOn emitOk lx az = (emitOk, [.up (.twist lx az) emitOk]) := by
  constructor <;> simp [send_twist_command, hOff, hOn]

/-- C7 witness: the statement at a disconnected and a connected client with a
concrete velocity pair. -/
theorem C7_witness :
    send_twist_command ⟨false, false⟩ true (.num 1) (.num 2) = (false, []) ∧
    send_twist_command ⟨true, true⟩ true (.num 1) (.num 2) =
      (true, [.up (.twist (.num 1) (.num 2)) true]) :=
  C7_thm ⟨false, false⟩ ⟨true, true⟩ rfl rfl true (.num 1) (.num 2)

/-- C8: with a session credential absent at startup the process runs in
standalone mode (`platform_client = None`): the health endpoint reports
`status "ok"`, `platform_connected false` and the active-connection count,
and a `move` command is answered with the `NotConnected`-class error event
rather than a crash or a closed connection. -/
theorem C8_thm (sid stok : Option String) (habs : sid = none ∨ stok = none)
    (transportOk confirmInTime : Bool) (conns : List Conn)
    (emitOk : Nat → Bool) (cmd : Dict)
    (_hmove : dictGet cmd "type" = some (Json.str "move")) :
    startup_event sid stok transportOk confirmInTime = none ∧
    health_check (startup_event sid stok transportOk confirmInTime) conns =
      { status := "ok", platform_connected := false,
        active_connections := conns.length } ∧
    handle_command (startup_event sid stok transportOk confirmInTime) emitOk cmd =
      [.browser (.error "Not connected to robot")] := by
  have hnone : startup_event sid stok transportOk confirmInTime = none := by
    rcases habs with h | h
    · subst h; rfl
    · subst h; cases sid <;> rfl
  refine ⟨hnone, ?_, ?_⟩ <;> rw [hnone] <;> rfl

/-- C8 witness: the statement with both credentials absent, one attached
connection and a concrete `move` command. -/
theorem C8_witness :
    startup_event none none true true = none ∧
    health_check (startup_event none none true true) [3] =
      { status := "ok", platform_connected := false, active_connections := 1 } ∧
    handle_command (startup_event none none true true) (fun _ => true)
        [("type", Json.str "move")] =
      [.browser (.error "Not connected to robot")] :=
  C8_thm none none (Or.inl rfl) true true [3] (fun _ => true)
    [("type", Json.str "move")] rfl

/-- C9: when `connect` fails because the confirmation wait timed out, that
path changes no client state — the returned result is failure, the
`_connected` flag is exactly what it was, and the transport stays up — so a
confirmation signal arriving after `connect` has returned still sets the flag
and makes `is_connected` return true. -/
theorem C9_thm (c : PlatformClient) :
    (connect c true false).1 = false ∧
    (connect c true false).2.connected = c.connected ∧
    (connect c true false).2.sioUp = true ∧
    is_connected (onConnectedSignal (connect c true false).2) = true := by
  refine ⟨rfl, ?_, rfl, rfl⟩
  simp [connect]

/-- C3 counterexample: the claim quantifies over every command of unknown
kind, but when the upstream channel is unavailable (standalone mode) the
router answers an unknown-kind command with the `Not connected to robot`
error, not with `Unknown command: dance`, and the two responses differ. -/
theorem C3_counterexample :
    handle_command none (fun _ => true) [("type", Json.str "dance")] =
      [.browser (.error "Not connected to robot")] ∧
    handle_command none (fun _ => true) [("type", Json.str "dance")] ≠
      [.browser (.error "Unknown command: dance")] := by
  constructor
  · rfl
  · decide

/-- C3 (amended): when the upstream channel is connected, a command whose
kind is outside move/stop/spin is answered with exactly one `error` event
whose message is `Unknown command: <kind>`, and no upstream emit attempt is
made. -/
theorem C3_thm (c : PlatformClient) (hc : c.connected = true)
    (emitOk : Nat → Bool) (cmd : Dict)
    (h1 : dictGet cmd "type" ≠ some (.str "move"))
    (h2 : dictGet cmd "type" ≠ some (.str "stop"))
    (h3 : dictGet cmd "type" ≠ some (.str "spin")) :
    handle_command (some c) emitOk cmd =
      [.browser (.error ("Unknown command: " ++ pyStrOpt (dictGet cmd "type")))] ∧
    upAttempts (handle_command (some c) emitOk cmd) = [] := by
  have h : handle_command (some c) emitOk cmd =
      [.browser (.error ("Unknown command: " ++ pyStrOpt (dictGet cmd "type")))] := by
    simp [handle_command, hc, h1, h2, h3]
  exact ⟨h, by rw [h]; rfl⟩

/-- C3 witness: the amended statement at a connected client and the concrete
unknown command kind `dance`. -/
theorem C3_witness :
    handle_command (some ⟨true, true⟩) (fun _ => true) [("type", Json.str "dance")] =
      [.browser (.error ("Unknown command: " ++
        pyStrOpt (dictGet [("type", Json.str "dance")] "type")))] ∧
    upAttempts (handle_command (some ⟨true, true⟩) (fun _ => true)
      [("type", Json.str "dance")]) = [] :=
  C3_thm ⟨true, true⟩ rfl (fun _ => true) [("type", Json.str "dance")]
    (by decide) (by decide) (by decide)

/-- C4 counterexample: for a `move` command whose `linear_x` is the string
`abc` (wrong type), the code forwards the malformed value to the upstream
twist command unchanged — the upstream payload carries `abc`, not the
documented default 0.0 the claim requires. -/
theorem C4_counterexample :
    handle_command (some ⟨true, true⟩) (fun _ => true)
        [("type", Json.str "move"), ("linear_x", Json.str "abc")] =
      [.up (.twist (.str "abc") (.num 0)) true,
       .browser (.commandSent "move" none)] ∧
    handle_command (some ⟨true, true⟩) (fun _ => true)
        [("type", Json.str "move"), ("linear_x", Json.str "abc")] ≠
      [.up (.twist (.num 0) (.num 0)) true,
       .browser (.commandSent "move" none)] := by
  constructor
  · rfl
  · decide

/-- C4 (amended): the router substitutes the documented defaults (0.0, 0.0,
2.0, 5.0) only when a numeric field is absent; a field that is present —
including one of the wrong type — is forwarded to the upstream command
unchanged, and in either case the command is still dispatched rather than
rejected. -/
theorem C4_thm (c : PlatformClient) (hc : c.connected = true)
    (emitOk : Nat → Bool) (v : Json) (rest : Dict) :
    handle_command (some c) emitOk
        (("type", Json.str "move") :: ("linear_x", v) :: rest) =
      .up (.twist v (dictGetD (("type", Json.str "move") :: ("linear_x", v) :: rest)
          "angular_z" (.num 0))) (emitOk 0) ::
        (if emitOk 0 then [.browser (.commandSent "move" none)]
         else [.browser (.error "Failed to send move command")]) ∧
    handle_command (some c) emitOk [("type", Json.str "move")] =
      .up (.twist (.num 0) (.num 0)) (emitOk 0) ::
        (if emitOk 0 then [.browser (.commandSent "move" none)]
         else [.browser (.error "Failed to send move command")]) ∧
    handle_command (some c) (fun _ => true) [("type", Json.str "spin")] =
      [.up (.twist (.num 0) (.num 2)) true,
       .browser (.commandSent "spin" (some (.num 5))),
       .sleep 5,
       .up (.twist (.num 0) (.num 0)) true] ∧
    handle_command (some c) (fun _ => true)
        [("type", Json.str "spin"), ("angular_speed", v)] =
      [.up (.twist (.num 0) v) true,
       .browser (.commandSent "spin" (some (.num 5))),
       .sleep 5,
       .up (.twist (.num 0) (.num 0)) true] := by
  refine ⟨?_, ?_, ?_, ?_⟩ <;>
    simp [handle_command, hc, dictGet, dictGetD, send_twist_command,
      send_stop_command, sleepArg]

/-- C4 witness: the amended statement at a connected client with the
wrong-typed value `abc`. -/
theorem C4_witness :
    handle_command (some ⟨true, true⟩) (fun _ => true)
        (("type", Json.str "move") :: ("linear_x", Json.str "abc") :: []) =
      .up (.twist (Json.str "abc")
          (dictGetD (("type", Json.str "move") :: ("linear_x", Json.str "abc") :: [])
            "angular_z" (.num 0))) ((fun _ : Nat => true) 0) ::
        (if (fun _ : Nat => true) 0 then [.browser (.commandSent "move" none)]
         else [.browser (.error "Failed to send move command")]) ∧
    handle_command (some ⟨true, true⟩) (fun _ => true) [("type", Json.str "move")] =
      .up (.twist (.num 0) (.num 0)) ((fun _ : Nat => true) 0) ::
        (if (fun _ : Nat => true) 0 then [.browser (.commandSent "move" none)]
         else [.browser (.error "Failed to send move command")]) ∧
    handle_command (some ⟨true, true⟩) (fun _ => true) [("type", Json.str "spin")] =
      [.up (.twist (.num 0) (.num 2)) true,
       .browser (.commandSent "spin" (some (.num 5))),
       .sleep 5,
       .up (.twist (.num 0) (.num 0)) true] ∧
    handle_command (some ⟨true, true⟩) (fun _ => true)
        [("type", Json.str "spin"), ("angular_speed", Json.str "abc")] =
      [.up (.twist (.num 0) (Json.str "abc")) true,
       .browser (.commandSent "spin" (some (.num 5))),
       .sleep 5,
       .up (.twist (.num 0) (.num 0)) true] :=
  C4_thm ⟨true, true⟩ rfl (fun _ => true) (Json.str "abc") []

/-- C10: the result of the spin's trailing stop transmission is discarded —
when the initial angular-velocity emit succeeds and the stop emit after the
sleep fails, the browser receives only `command_sent` (no `error` event) and
exactly one stop attempt is made (no retry) — whereas when the initial
angular-velocity emit fails the browser receives the
`Failed to send spin command` error event. -/
theorem C10_thm (c : PlatformClient) (hc : c.connected = true) (a d : ℚ) :
    handle_command (some c) (fun n => n == 0) (spinCmd a d) =
      [.up (.twist (.num 0) (.num a)) true,
       .browser (.commandSent "spin" (some (.num d))),
       .sleep d,
       .up (.twist (.num 0) (.num 0)) false] ∧
    handle_command (some c) (fun _ => false) (spinCmd a d) =
      [.up (.twist (.num 0) (.num a)) false,
       .browser (.error "Failed to send spin command")] := by
  constructor <;>
    simp [handle_command, spinCmd, hc, dictGet, dictGetD, send_twist_command,
      send_stop_command, sleepArg]

/-- C10 witness: the statement at a connected client with angular speed 1 and
duration 3. -/
theorem C10_witness :
    handle_command (some ⟨true, true⟩) (fun n => n == 0) (spinCmd 1 3) =
      [.up (.twist (.num 0) (.num 1)) true,
       .browser (.commandSent "spin" (some (.num 3))),
       .sleep 3,
       .up (.twist (.num 0) (.num 0)) false] ∧
    handle_command (some ⟨true, true⟩) (fun _ => false) (spinCmd 1 3) =
      [.up (.twist (.num 0) (.num 1)) false,
       .browser (.error "Failed to send spin command")] :=
  C10_thm ⟨true, true⟩ rfl 1 3

/-- C6: a spin command with angular speed `a` and duration `d` issued while
connected produces exactly two upstream transmissions — first the velocity
command carrying angular speed `a` at clock 0, then the zero-velocity stop —
and the stop occurs no earlier than `d` after the first transmission. -/
theorem C6_thm (c : PlatformClient) (hc : c.connected = true) (a d : ℚ) :
    timedUp (handle_command (some c) (fun _ => true) (spinCmd a d)) =
      [(0, .twist (.num 0) (.num a), true),
       (max d 0, .twist (.num 0) (.num 0), true)] ∧
    d ≤ max d 0 - 0 := by
  constructor
  · simp [handle_command, spinCmd, hc, dictGet, dictGetD, send_twist_command,
      send_stop_command, sleepArg, timedUp, timedUpFrom]
  · simp

/-- C6 witness: the statement at a connected client with the round-trip
values of the spec, angular speed 2.0 and duration 0.1. -/
theorem C6_witness :
    timedUp (handle_command (some ⟨true, true⟩) (fun _ => true)
        (spinCmd 2 (1 / 10))) =
      [(0, .twist (.num 0) (.num 2), true),
       (max (1 / 10) 0, .twist (.num 0) (.num 0), true)] ∧
    (1 / 10 : ℚ) ≤ max (1 / 10) 0 - 0 :=
  C6_thm ⟨true, true⟩ rfl 2 (1 / 10)

/-- C1 counterexample: the router does block the requesting connection for
the spin's duration.  With a spin of default duration 5 followed by a move on
the same connection, the move's upstream transmission is timestamped 5 — the
full spin duration — because the receive loop awaits the spin handler (which
sleeps, then sends the stop) before reading the next command; the claim would
need it processed before the duration elapsed, i.e. strictly earlier than 5. -/
theorem C1_counterexample :
    timedUp (processCommands (some ⟨true, true⟩) (fun _ _ => true)
      [[("type", Json.str "spin")],
       [("type", Json.str "move"), ("linear_x", Json.num 1)]]) =
      [(0, .twist (.num 0) (.num 2), true),
       (5, .twist (.num 0) (.num 0), true),
       (5, .twist (.num 1) (.num 0), true)] ∧
    ¬ ((5 : ℚ) < 5) := by
  constructor
  · simp [processCommands, handle_command, dictGet, dictGetD,
      send_twist_command, send_stop_command, sleepArg, timedUp, timedUpFrom]
  · simp

/-- C1 (amended): the `command_sent` response for a spin is sent immediately
after the angular-velocity command is issued, at clock 0, before the duration
elapses; however the router does block the requesting connection for the
spin's duration — the handler keeps the receive loop busy for the full
duration (it sleeps, then sends the stop, before returning), and the next
command on that connection is handled only after the spin handler's whole
trace. -/
theorem C1_thm (c : PlatformClient) (hc : c.connected = true) (a d : ℚ)
    (cmd2 : Dict) :
    timedBrowser (handle_command (some c) (fun _ => true) (spinCmd a d)) =
      [(0, .commandSent "spin" (some (.num d)))] ∧
    clockAfter (handle_command (some c) (fun _ => true) (spinCmd a d)) =
      max d 0 ∧
    processCommands (some c) (fun _ _ => true) [spinCmd a d, cmd2] =
      handle_command (some c) (fun _ => true) (spinCmd a d) ++
        handle_command (some c) (fun _ => true) cmd2 := by
  refine ⟨?_, ?_, ?_⟩
  · simp [handle_command, spinCmd, hc, dictGet, dictGetD, send_twist_command,
      send_stop_command, sleepArg, timedBrowser, timedBrowserFrom]
  · simp [handle_command, spinCmd, hc, dictGet, dictGetD, send_twist_command,
      send_stop_command, sleepArg, clockAfter]
  · simp [processCommands]

/-- C1 witness: the amended statement at a connected client, a spin with
angular speed 2 and duration 5, followed by a stop command. -/
theorem C1_witness :
    timedBrowser (handle_command (some ⟨true, true⟩) (fun _ => true)
        (spinCmd 2 5)) =
      [(0, .commandSent "spin" (some (.num 5)))] ∧
    clockAfter (handle_command (some ⟨true, true⟩) (fun _ => true)
        (spinCmd 2 5)) = max 5 0 ∧
    processCommands (some ⟨true, true⟩) (fun _ _ => true)
        [spinCmd 2 5, [("type", Json.str "stop")]] =
      handle_command (some ⟨true, true⟩) (fun _ => true) (spinCmd 2 5) ++
        handle_command (some ⟨true, true⟩) (fun _ => true)
          [("type", Json.str "stop")] :=
  C1_thm ⟨true, true⟩ rfl 2 5 [("type", Json.str "stop")]

end Relay
